import Mathlib

/-!
Verification of the Greeter module (`src/hello.py`).

The module defines two operations:
* `hello()` — prints the fixed line "Hello, World!" to standard output;
* `hello_name(name)` — returns the string `f"Hello, {name}!"`, a pure function;
and a direct-invocation entry point guarded by `if __name__ == "__main__":`
that calls `hello()` and then prints `hello_name("Developer")`.

Python strings are embedded as Lean `String`.  Standard output is embedded
explicitly as a list of emitted lines (`List String`); every `print(s)` call
appends the single line `s` to that list.  Effectful operations are embedded
as state-passing functions on the output trace.
-/

namespace Greeter

/-- Embedding of Python's `print(s)`: appends one line `s` to the output
trace.  (Python's `print` writes `s` followed by a line terminator.) -/
def print_stdout (s : String) (out : List String) : List String :=
  out ++ [s]

/-- Embedding of `hello()` (src/hello.py lines 1-3): `print("Hello, World!")`.
The Python function returns `None`; the embedding returns only the updated
output trace. -/
def hello (out : List String) : List String :=
  print_stdout "Hello, World!" out

/-- Embedding of `hello_name(name)` (src/hello.py lines 6-15):
`return f"Hello, {name}!"`.  The f-string interpolates the `str` value
`name` verbatim between the literal fragments `"Hello, "` and `"!"`,
so the result is their concatenation.  The body performs no output. -/
def hello_name (name : String) : String :=
  "Hello, " ++ name ++ "!"

/-- Embedding of the module body at load time (src/hello.py lines 18-20):
the guard `if __name__ == "__main__":` runs `hello()` and then
`print(hello_name("Developer"))` only when the module is invoked directly;
importing the module (`is_main = false`) runs nothing. -/
def run_module (is_main : Bool) (out : List String) : List String :=
  if is_main then print_stdout (hello_name "Developer") (hello out) else out

/-- Spec-side definition of the format operation, written from the spec's
words: "a new sequence of characters equal to the concatenation of
\"Hello, \", the input `name`, and \"!\"".  Used to compare the code's
`hello_name` against the specified behaviour. -/
def format_spec (s : String) : String :=
  "Hello, " ++ s ++ "!"

/-- A call to the Greeter module: either the emit operation `hello()` or
the format operation `hello_name(s)`. -/
inductive Call where
  | hello : Call
  | helloName (s : String) : Call

/-- Executing one call against the current output trace: `hello()` appends
its fixed line and returns no value; `hello_name(s)` leaves the output
unchanged and returns its result. -/
def exec_call : Call → List String → List String × Option String
  | Call.hello, out => (hello out, none)
  | Call.helloName s, out => (out, some (hello_name s))

/-- Executing a finite sequence of calls, threading the output trace. -/
def exec_calls : List Call → List String → List String
  | [], out => out
  | c :: cs, out => exec_calls cs (exec_call c out).1

/-- Inverse of the format operation, as the round-trip claim describes it:
drop the 7-character prefix "Hello, " and the final character "!". -/
def unformat (g : String) : String :=
  String.mk ((g.data.drop 7).dropLast)

end Greeter

namespace Greeter

/-- C1: for every input string `s`, `hello_name s` is exactly the
concatenation of "Hello, ", `s`, and "!" — the code's format operation
coincides with the spec-side definition, with no transformation of `s`. -/
theorem hello_name_eq_format_spec (s : String) :
    hello_name s = format_spec s ∧ format_spec s = "Hello, " ++ s ++ "!" :=
  ⟨rfl, rfl⟩

/-- C1 witness: the theorem instantiated at the concrete input "Alice". -/
theorem hello_name_eq_format_spec_witness :
    hello_name "Alice" = format_spec "Alice" ∧
      format_spec "Alice" = "Hello, " ++ "Alice" ++ "!" :=
  hello_name_eq_format_spec "Alice"

/-- C2: running the module directly (is_main = true) on an empty output
trace produces exactly the two lines "Hello, World!" then
"Hello, Developer!", in that order. -/
theorem run_module_main_transcript :
    run_module true [] = ["Hello, World!", "Hello, Developer!"] := by
  rfl

/-- C3: the emit operation appends exactly one line to the output trace,
equal to "Hello, World!", regardless of the prior output, and produces no
return value. -/
theorem hello_emits_one_line (out : List String) :
    hello out = out ++ ["Hello, World!"] ∧
      (exec_call Call.hello out).2 = none := by
  exact ⟨rfl, rfl⟩

/-- C4: `hello_name` is pure and referentially transparent: two calls with
equal inputs return equal results, and a call leaves the output trace
unchanged (writes nothing to standard output). -/
theorem hello_name_pure (s t : String) (out : List String) (h : s = t) :
    hello_name s = hello_name t ∧
      (exec_call (Call.helloName s) out).1 = out := by
  subst h
  exact ⟨rfl, rfl⟩

/-- C4 witness: the purity theorem at the concrete input "Alice" and the
empty output trace. -/
theorem hello_name_pure_witness :
    hello_name "Alice" = hello_name "Alice" ∧
      (exec_call (Call.helloName "Alice") []).1 = [] :=
  hello_name_pure "Alice" "Alice" [] rfl

/-- C5: the format operation cannot fail: for every input string the
embedded call returns a result (`some` value), never a failure. -/
theorem hello_name_total (s : String) :
    ∃ r : String, (exec_call (Call.helloName s) []).2 = some r :=
  ⟨hello_name s, rfl⟩

/-- C6: the empty string is a valid input, and `hello_name ""` is
"Hello, !". -/
theorem hello_name_empty : hello_name "" = "Hello, !" := by
  rfl

/-- C7: special characters (quotes, hyphens) pass through unmodified:
`hello_name "Bob-O'Connor"` is "Hello, Bob-O'Connor!". -/
theorem hello_name_special_chars :
    hello_name "Bob-O\x27Connor" = "Hello, Bob-O\x27Connor!" := by
  rfl

/-- C8: both operations are stateless: after any finite sequence of prior
calls, a `hello_name s` call returns exactly the value it returns in
isolation, and a `hello()` call appends exactly the single line
"Hello, World!" to whatever output precedes it. -/
theorem greeter_stateless (pre : List Call) (s : String) :
    (exec_call (Call.helloName s) (exec_calls pre [])).2
        = (exec_call (Call.helloName s) []).2 ∧
      (exec_call Call.hello (exec_calls pre [])).1
        = exec_calls pre [] ++ ["Hello, World!"] :=
  ⟨rfl, rfl⟩

/-- C9: round-trip: dropping the 7-character prefix "Hello, " and the final
character "!" from `hello_name s` yields `s` back; consequently
`hello_name` is injective. -/
theorem hello_name_roundtrip (s t : String) :
    unformat (hello_name s) = s ∧ (hello_name s = hello_name t → s = t) := by
  have key : ∀ u : String, unformat (hello_name u) = u := by
    intro u
    show String.mk ((("Hello, " ++ u ++ "!").data.drop 7).dropLast) = u
    have hdata : ("Hello, " ++ u ++ "!").data
        = "Hello, ".data ++ (u.data ++ "!".data) := by
      simp [String.data_append]
    rw [hdata]
    have hdrop : ("Hello, ".data ++ (u.data ++ "!".data)).drop 7
        = u.data ++ "!".data := by
      have hlen : ("Hello, ".data).length = 7 := rfl
      rw [← hlen, List.drop_left]
    rw [hdrop]
    have hlast : (u.data ++ "!".data).dropLast = u.data := by
      show (u.data ++ [Char.ofNat 33]).dropLast = u.data
      simp
    rw [hlast]
  exact ⟨key s, fun h => by
    have hs := key s
    have ht := key t
    rw [← hs, ← ht, h]⟩

/-- C9 witness: the round-trip theorem at the concrete inputs "Alice" and
"Alice", with the injectivity hypothesis discharged by reflexivity. -/
theorem hello_name_roundtrip_witness :
    unformat (hello_name "Alice") = "Alice" ∧
      (hello_name "Alice" = hello_name "Alice" → "Alice" = "Alice") :=
  hello_name_roundtrip "Alice" "Alice"

/-- C10: importing the module (is_main = false) produces no output: the
output trace is unchanged, for every prior trace. -/
theorem import_no_output (out : List String) :
    run_module false out = out := by
  rfl

end Greeter
